import Mathlib

/-!
Verification of the nuxt-axiom tracing layer.

Shallow embedding of the span-lifecycle / context-propagation core:
the Result-based server utilities (`createSpanFromRequest`, `createSpan`,
`createSpanInBackground`, `defineTracedMiddleware`, `defineTracedHandler`),
the earlier exception-based variants (`createSpanFromRequestV1`,
`fireAndForget`), and the client trace-propagating transport
(`createXhrFetch`, `createXhrNativeFetch`) together with the W3C
traceparent codec.

Modelling conventions: asynchronous callbacks are represented by the
span operations they perform plus their settlement (returned success,
returned domain failure, or thrown exception); the tracer's random id
generator is a counter threaded through the span factories; header
writes and work invocation are additionally recorded in an action log so
that ordering properties can be stated.
-/

namespace NuxtAxiom

/-- Primitive attribute values (`string | number | boolean` in the source). -/
inductive AttrVal
  | str (s : String)
  | num (n : Int)
  | boolean (b : Bool)
deriving DecidableEq, Repr

/-- Span status: `SpanStatusCode` (UNSET | OK | ERROR) together with the
optional error message that the source always passes on the ERROR path. -/
inductive SpanStatus
  | unset
  | ok
  | error (message : String)
deriving DecidableEq, Repr

/-- `SpanKind` from `@opentelemetry/api`. -/
inductive SpanKind
  | server
  | client
  | internal
  | producer
  | consumer
deriving DecidableEq, Repr

/-- A thrown JavaScript error value: its message and the duck-typed
`statusCode` field that `createSpanFromRequestV1` probes (`?? 500`). -/
structure Exn where
  message : String
  statusCode : Option Nat := none
deriving DecidableEq, Repr

/-- `HandlerError` (src/server/utils/otel.ts): the minimal failure shape,
`{ message, statusCode }`. The generic error parameter `E` of the span
factories is instantiated at this interface, which it extends in
`defineTracedMiddleware` / `defineTracedHandler`. -/
structure HandlerError where
  message : String
  statusCode : Nat
deriving DecidableEq, Repr

/-- `getErrorMessage` (src/server/utils/otel.ts lines 748-754) applied to a
`HandlerError`-shaped value: the object has a `message` field, so the
function returns `String(error.message) = error.message`. -/
def getErrorMessage (e : HandlerError) : String := e.message

-- ===========================================================================
-- Trace Context Codec
-- ===========================================================================

/-- Lowercase hexadecimal digit, as required by the W3C traceparent format. -/
def isHexChar (c : Char) : Bool :=
  ('0' ≤ c && c ≤ '9') || ('a' ≤ c && c ≤ 'f')

/-- The traceparent header the client builds from a span context:
the template literal `00-<traceId>-<spanId>-01`
(src/app/plugins/otel.client.ts lines 137 and 233 and 493). -/
def encodeTraceparent (traceId spanId : String) : String :=
  "00-" ++ traceId ++ "-" ++ spanId ++ "-01"

/-- Modelled from the spec: the trace-context extraction performed by the
`W3CTraceContextPropagator` that `extractTraceContext` delegates to via
`propagation.extract` is library code not present under src/. Per spec
section 4.1 it "parses `00-<32 hex>-<16 hex>-<2 hex>`; returns none (not an
error) on absence/malformation"; ids are lowercase hex and, as in the W3C
format the spec names, all-zero trace/span ids are malformed. -/
def decodeTraceparent (h : String) : Option (String × String) :=
  let cs := h.data
  if cs.take 2 = ['0', '0'] ∧ (cs.drop 2).take 1 = ['-']
      ∧ ((cs.drop 3).take 32).length = 32
      ∧ ((cs.drop 3).take 32).all isHexChar
      ∧ ((cs.drop 3).take 32).any (fun c => c != '0')
      ∧ (cs.drop 35).take 1 = ['-']
      ∧ ((cs.drop 36).take 16).length = 16
      ∧ ((cs.drop 36).take 16).all isHexChar
      ∧ ((cs.drop 36).take 16).any (fun c => c != '0')
      ∧ (cs.drop 52).take 1 = ['-']
      ∧ (cs.drop 53).length = 2 ∧ (cs.drop 53).all isHexChar
  then some (String.mk ((cs.drop 3).take 32), String.mk ((cs.drop 36).take 16))
  else none

-- ===========================================================================
-- Server model: spans
-- ===========================================================================

/-- Trace/span identifiers on the server: minted by the tracer's id
generator (a counter in this model) or carried in from a decoded
traceparent header (a hex string). -/
inductive Id
  | gen (n : Nat)
  | hex (s : String)
deriving DecidableEq, Repr

/-- Rendering of an id as the header string the source writes. -/
def idRepr : Id → String
  | .gen n => Nat.repr n
  | .hex s => s

/-- A span context: the `{ traceId, spanId }` pair `span.spanContext()`
returns; also the content of an OTel `Context` carrying an active span
(`ROOT_CONTEXT` is `none : Option SpanContext`). -/
structure SpanContext where
  traceId : Id
  spanId : Id
deriving DecidableEq, Repr

/-- A server-side span. `endCount` counts calls of `span.end()` so that
the ended-exactly-once property can be stated. -/
structure Span where
  name : String
  kind : SpanKind
  traceId : Id
  spanId : Id
  parentSpanId : Option Id
  status : SpanStatus
  attributes : List (String × AttrVal)
  events : List String
  exceptions : List String
  endCount : Nat
deriving DecidableEq, Repr

/-- `span.setAttribute(k, v)`: overwrite semantics. -/
def Span.setAttribute (s : Span) (k : String) (v : AttrVal) : Span :=
  { s with attributes := (k, v) :: s.attributes.filter (fun p => p.1 != k) }

/-- `span.addEvent(n)`. -/
def Span.addEvent (s : Span) (n : String) : Span :=
  { s with events := s.events ++ [n] }

/-- `span.recordException(err)`: records the exception message. -/
def Span.recordException (s : Span) (msg : String) : Span :=
  { s with exceptions := s.exceptions ++ [msg] }

/-- `span.setStatus({ code, message? })`. -/
def Span.setStatus (s : Span) (st : SpanStatus) : Span :=
  { s with status := st }

/-- `span.end()` (`end` is reserved in Lean). -/
def Span.endSpan (s : Span) : Span :=
  { s with endCount := s.endCount + 1 }

/-- The span mutations a wrapped callback performs on the span handed to
it. The repository's callbacks set attributes and add events; per the
spec's lifecycle, finalization belongs to the wrapping factory alone. -/
inductive SpanOp
  | setAttr (k : String) (v : AttrVal)
  | addEvent (n : String)
deriving DecidableEq, Repr

def applyOp (s : Span) : SpanOp → Span
  | .setAttr k v => s.setAttribute k v
  | .addEvent n => s.addEvent n

def applyOps (s : Span) (ops : List SpanOp) : Span :=
  ops.foldl applyOp s

/-- `SpanOptions` (`{ kind?, attributes? }`). -/
structure SpanOptions where
  kind : Option SpanKind := none
  attributes : List (String × AttrVal) := []

/-- `tracer.startActiveSpan` / `tracer.startSpan`: start a span under the
given parent context (child keeps the parent's traceId and gets a fresh
spanId) or mint a fresh root context. `g` is the id-generator counter. -/
def startSpan (name : String) (kind : SpanKind) (attrs : List (String × AttrVal))
    (parent : Option SpanContext) (g : Nat) : Span × Nat :=
  match parent with
  | some p =>
      ({ name := name, kind := kind, traceId := p.traceId, spanId := .gen g,
         parentSpanId := some p.spanId, status := .unset, attributes := attrs,
         events := [], exceptions := [], endCount := 0 }, g + 1)
  | none =>
      ({ name := name, kind := kind, traceId := .gen g, spanId := .gen (g + 1),
         parentSpanId := none, status := .unset, attributes := attrs,
         events := [], exceptions := [], endCount := 0 }, g + 2)

-- ===========================================================================
-- Server model: H3 event and context carrier
-- ===========================================================================

/-- The H3 request event: incoming headers, outgoing response headers,
and the `__otel_trace_context__` slot the middleware stores into. -/
structure H3Event where
  reqHeaders : List (String × String)
  resHeaders : List (String × String)
  storedCtx : Option SpanContext
deriving DecidableEq, Repr

/-- h3 `setHeader(event, k, v)`: replaces any existing header `k`. -/
def setHeader (e : H3Event) (k v : String) : H3Event :=
  { e with resHeaders := (k, v) :: e.resHeaders.filter (fun p => p.1 != k) }

/-- Response-header lookup, for stating header presence. -/
def getResHeader (e : H3Event) (k : String) : Option String :=
  (e.resHeaders.find? (fun p => p.1 == k)).map Prod.snd

/-- ASCII lowercasing of one character (`toLowerCase`). -/
def lowerChar (c : Char) : Char :=
  if 'A' ≤ c ∧ c ≤ 'Z' then Char.ofNat (c.toNat + 32) else c

/-- ASCII lowercasing of a header name (`key.toLowerCase()`). -/
def lowerStr (s : String) : String := String.mk (s.data.map lowerChar)

/-- `extractTraceContext` (lines 428-437): build a carrier from the
incoming headers and extract the W3C trace context; h3 exposes header
names lowercased, and the propagator reads the `traceparent` entry. -/
def extractTraceContext (e : H3Event) : Option SpanContext :=
  match e.reqHeaders.find? (fun p => lowerStr p.1 == "traceparent") with
  | some p => (decodeTraceparent p.2).map (fun ts => ⟨Id.hex ts.1, Id.hex ts.2⟩)
  | none => none

/-- `setEventTraceContext` (lines 442-447). -/
def setEventTraceContext (e : H3Event) (c : SpanContext) : H3Event :=
  { e with storedCtx := some c }

/-- `getEventTraceContext` (lines 452-458): stored context if present,
else extract from the headers. -/
def getEventTraceContext (e : H3Event) : Option SpanContext :=
  match e.storedCtx with
  | some c => some c
  | none => extractTraceContext e

-- ===========================================================================
-- Server model: callbacks and outcomes
-- ===========================================================================

/-- Settlement of a Result-returning callback: resolved `ok`, resolved
`err`, or rejected with a thrown exception. -/
inductive CbOutcome (T : Type)
  | ok (v : T)
  | err (e : HandlerError)
  | exn (e : Exn)

/-- A Result-returning callback: the span operations it performs followed
by its settlement. -/
structure Callback (T : Type) where
  ops : List SpanOp
  outcome : CbOutcome T

/-- Settlement of a first-variant callback (plain value or throw). -/
inductive CbOutcomeV1 (T : Type)
  | ok (v : T)
  | exn (e : Exn)

structure CallbackV1 (T : Type) where
  ops : List SpanOp
  outcome : CbOutcomeV1 T

/-- `Result` from neverthrow, as used by the factories. -/
inductive Result (T E : Type)
  | ok (v : T)
  | err (e : E)

/-- The failure value returned by `createSpanFromRequest`:
`{ ...error, traceId, spanId }` for a `HandlerError`-shaped `error`. -/
structure Traced where
  message : String
  statusCode : Nat
  traceId : Id
  spanId : Id

/-- An h3 error built by `createError({ statusCode, statusMessage, data })`
with `data = { error, traceId, spanId }`. -/
structure HttpError where
  statusCode : Nat
  statusMessage : String
  dataMessage : String
  dataTraceId : Id
  dataSpanId : Id

/-- What propagates out of a factory by throwing: an h3 error made with
`createError`, or an uncaught raw exception. -/
inductive Thrown
  | http (e : HttpError)
  | raw (e : Exn)

/-- Observable actions of a request-scoped factory, in execution order:
response-header writes, committing the event trace context, invoking the
wrapped callback, ending the span. -/
inductive Action
  | setResHeader (k v : String)
  | storeCtx
  | invokeWork
  | endSpan
deriving DecidableEq, Repr

-- ===========================================================================
-- Server factories (Result-based variant, src/server/utils/otel.ts 481-742)
-- ===========================================================================

/-- Run record of `createSpanFromRequest`. -/
structure ReqRun (T : Type) where
  event : H3Event
  span : Span
  gen : Nat
  outcome : Except Thrown (Result T Traced)
  log : List Action

/-- `createSpanFromRequest` (lines 481-534), Result-based variant: resolve
the parent context (stored by middleware, else extracted from headers),
start a SERVER-kind span, write `X-Trace-Id`/`X-Span-Id`, store the new
context on the event, run the callback. A returned failure is recorded and
returned augmented with the ids; a returned success is returned after an OK
finalize; a thrown exception is not caught — it propagates raw and no
`span.end()` runs. -/
def createSpanFromRequest {T : Type} (event : H3Event) (name : String)
    (cb : Callback T) (opts : SpanOptions) (g : Nat) : ReqRun T :=
  let parentContext := getEventTraceContext event
  let sg := startSpan name (opts.kind.getD .server) opts.attributes parentContext g
  let span0 := sg.1
  let traceId := span0.traceId
  let spanId := span0.spanId
  let e1 := setHeader (setHeader event "X-Trace-Id" (idRepr traceId)) "X-Span-Id" (idRepr spanId)
  let e2 := setEventTraceContext e1 ⟨traceId, spanId⟩
  let baseLog := [Action.setResHeader "X-Trace-Id" (idRepr traceId),
                  Action.setResHeader "X-Span-Id" (idRepr spanId),
                  Action.storeCtx, Action.invokeWork]
  let span1 := applyOps span0 cb.ops
  match cb.outcome with
  | .ok v =>
      { event := e2, span := (span1.setStatus .ok).endSpan, gen := sg.2,
        outcome := .ok (.ok v), log := baseLog ++ [.endSpan] }
  | .err e =>
      let message := getErrorMessage e
      { event := e2,
        span := ((((span1.recordException message).setStatus
            (.error message)).setAttribute "error"
            (.boolean true)).setAttribute "error.message" (.str message)).endSpan,
        gen := sg.2,
        outcome := .ok (.err ⟨e.message, e.statusCode, traceId, spanId⟩),
        log := baseLog ++ [.endSpan] }
  | .exn ex =>
      { event := e2, span := span1, gen := sg.2,
        outcome := .error (.raw ex), log := baseLog }

/-- Run record of `createSpan`. -/
structure SpanRun (T : Type) where
  span : Span
  gen : Nat
  outcome : Except Thrown (Result T HandlerError)

/-- `createSpan` (lines 540-570), Result-based variant: INTERNAL-kind span
under the ambient context. Returned failure → recorded, ERROR finalize,
returned unchanged. Returned success → OK finalize. A thrown exception is
not caught and the span is not ended. -/
def createSpan {T : Type} (amb : Option SpanContext) (name : String)
    (cb : Callback T) (opts : SpanOptions) (g : Nat) : SpanRun T :=
  let sg := startSpan name (opts.kind.getD .internal) opts.attributes amb g
  let span1 := applyOps sg.1 cb.ops
  match cb.outcome with
  | .ok v => { span := (span1.setStatus .ok).endSpan, gen := sg.2, outcome := .ok (.ok v) }
  | .err e =>
      let message := getErrorMessage e
      { span := (((span1.recordException message).setStatus
            (.error message)).setAttribute "error" (.boolean true)).endSpan,
        gen := sg.2, outcome := .ok (.err e) }
  | .exn ex => { span := span1, gen := sg.2, outcome := .error (.raw ex) }

/-- Run record of a background factory: the caller-visible value is `()`
with nothing thrown at the caller; `logged` is what `console.error`
printed; `unhandled` is a detached promise rejection nobody observes. -/
structure BgRun where
  span : Span
  gen : Nat
  callerValue : Unit
  logged : List String
  unhandled : Option Exn

/-- `createSpanInBackground` (lines 576-612): INTERNAL span tagged
`span.type = background` under a snapshot of the ambient context, not
awaited by the caller. A returned failure is logged and the span ends
ERROR; success ends OK. A thrown exception is not caught: the span is not
ended and the rejection is unhandled. -/
def createSpanInBackground (amb : Option SpanContext) (name : String)
    (cb : Callback Unit) (opts : SpanOptions) (g : Nat) : BgRun :=
  let sg := startSpan name (opts.kind.getD .internal)
      (("span.type", AttrVal.str "background") :: opts.attributes) amb g
  let span1 := applyOps sg.1 cb.ops
  match cb.outcome with
  | .ok _ =>
      { span := (span1.setStatus .ok).endSpan, gen := sg.2, callerValue := (),
        logged := [], unhandled := none }
  | .err e =>
      let message := getErrorMessage e
      { span := ((span1.recordException message).setStatus (.error message)).endSpan,
        gen := sg.2, callerValue := (),
        logged := ["[OTEL] Background task \"" ++ name ++ "\" failed: " ++ message],
        unhandled := none }
  | .exn ex =>
      { span := span1, gen := sg.2, callerValue := (), logged := [],
        unhandled := some ex }

/-- Run record of `defineTracedMiddleware`'s handler. -/
structure MwRun where
  event : H3Event
  span : Span
  gen : Nat
  outcome : Except Thrown Unit
  log : List Action

/-- `defineTracedMiddleware` (lines 636-693): SERVER-kind span tagged with
`middleware.name`; commits its span context to the event, writes the trace
headers, runs the step. A returned failure ends the span ERROR and throws
a terminal `createError` built from the failure's statusCode/message; a
success ends the span OK and returns nothing. -/
def defineTracedMiddleware (event : H3Event) (name : String)
    (cb : Callback Unit) (opts : SpanOptions) (g : Nat) : MwRun :=
  let parentContext := getEventTraceContext event
  let sg := startSpan name (opts.kind.getD .server)
      (("middleware.name", AttrVal.str name) :: opts.attributes) parentContext g
  let span0 := sg.1
  let traceId := span0.traceId
  let spanId := span0.spanId
  let e1 := setEventTraceContext event ⟨traceId, spanId⟩
  let e2 := setHeader (setHeader e1 "X-Trace-Id" (idRepr traceId)) "X-Span-Id" (idRepr spanId)
  let baseLog := [Action.storeCtx,
                  Action.setResHeader "X-Trace-Id" (idRepr traceId),
                  Action.setResHeader "X-Span-Id" (idRepr spanId),
                  Action.invokeWork]
  let span1 := applyOps span0 cb.ops
  match cb.outcome with
  | .ok _ =>
      { event := e2, span := (span1.setStatus .ok).endSpan, gen := sg.2,
        outcome := .ok (), log := baseLog ++ [.endSpan] }
  | .err e =>
      let message := getErrorMessage e
      { event := e2,
        span := ((((span1.recordException message).setStatus
            (.error message)).setAttribute "error"
            (.boolean true)).setAttribute "error.message" (.str message)).endSpan,
        gen := sg.2,
        outcome := .error (.http ⟨e.statusCode, message, message, traceId, spanId⟩),
        log := baseLog ++ [.endSpan] }
  | .exn ex =>
      { event := e2, span := span1, gen := sg.2,
        outcome := .error (.raw ex), log := baseLog }

/-- Run record of a `defineTracedHandler` handler. -/
structure HandlerRun (T : Type) where
  event : H3Event
  span : Span
  gen : Nat
  outcome : Except Thrown T

/-- `defineTracedHandler` (lines 712-742): wrap the work in
`createSpanFromRequest`; a returned failure becomes a thrown `createError`
carrying its statusCode, its message and the trace ids; a success returns
the value. -/
def defineTracedHandler {T : Type} (event : H3Event) (name : String)
    (cb : Callback T) (opts : SpanOptions) (g : Nat) : HandlerRun T :=
  let r := createSpanFromRequest event name cb
      { kind := some (opts.kind.getD .server), attributes := opts.attributes } g
  match r.outcome with
  | .error t => { event := r.event, span := r.span, gen := r.gen, outcome := .error t }
  | .ok (.err te) =>
      { event := r.event, span := r.span, gen := r.gen,
        outcome := .error (.http ⟨te.statusCode, te.message, te.message,
          te.traceId, te.spanId⟩) }
  | .ok (.ok v) => { event := r.event, span := r.span, gen := r.gen, outcome := .ok v }

-- ===========================================================================
-- Server factories (first variant, src/server/utils/otel.ts 127-279)
-- ===========================================================================

/-- Run record of the first-variant `createSpanFromRequest`. -/
structure ReqRunV1 (T : Type) where
  event : H3Event
  span : Span
  gen : Nat
  outcome : Except Thrown T

/-- `createSpanFromRequest` (first variant, lines 127-187): the callback
returns a plain value or throws. A thrown error is recorded, the span is
finalized ERROR, and a `createError` with the thrown error's statusCode
(default 500) and the span's trace ids is re-raised. -/
def createSpanFromRequestV1 {T : Type} (event : H3Event) (name : String)
    (cb : CallbackV1 T) (opts : SpanOptions) (g : Nat) : ReqRunV1 T :=
  let parentContext := extractTraceContext event
  let sg := startSpan name (opts.kind.getD .server) opts.attributes parentContext g
  let span0 := sg.1
  let traceId := span0.traceId
  let spanId := span0.spanId
  let e1 := setHeader (setHeader event "X-Trace-Id" (idRepr traceId)) "X-Span-Id" (idRepr spanId)
  let span1 := applyOps span0 cb.ops
  match cb.outcome with
  | .ok v =>
      { event := e1, span := (span1.setStatus .ok).endSpan, gen := sg.2, outcome := .ok v }
  | .exn ex =>
      { event := e1,
        span := ((((span1.recordException ex.message).setStatus
            (.error ex.message)).setAttribute "error"
            (.boolean true)).setAttribute "error.message" (.str ex.message)).endSpan,
        gen := sg.2,
        outcome := .error (.http ⟨ex.statusCode.getD 500, ex.message, ex.message,
          traceId, spanId⟩) }

/-- `fireAndForget` (lines 238-279): INTERNAL span tagged
`span.type = fire-and-forget` under a context snapshot; errors are caught
(logged, recorded, ERROR) and the span is always ended in `finally`. -/
def fireAndForget (amb : Option SpanContext) (name : String)
    (cb : CallbackV1 Unit) (opts : SpanOptions) (g : Nat) : BgRun :=
  let sg := startSpan name (opts.kind.getD .internal)
      (("span.type", AttrVal.str "fire-and-forget") :: opts.attributes) amb g
  let span1 := applyOps sg.1 cb.ops
  match cb.outcome with
  | .ok _ =>
      { span := (span1.setStatus .ok).endSpan, gen := sg.2, callerValue := (),
        logged := [], unhandled := none }
  | .exn ex =>
      { span := ((span1.recordException ex.message).setStatus (.error ex.message)).endSpan,
        gen := sg.2, callerValue := (),
        logged := ["[fireAndForget] " ++ name ++ " failed: " ++ ex.message],
        unhandled := none }

-- ===========================================================================
-- Client model (src/app/plugins/otel.client.ts)
-- ===========================================================================

/-- The module-level flag enabling child HTTP spans inside manual spans
(otel.client.ts line 51). -/
def ENABLE_MANUAL_SPAN_HTTP_TRACING : Bool := true

/-- The context of the enclosing client span (`trace.setSpan(...)` passed
to the transport helpers as `parentCtx`). -/
structure ClientCtx where
  traceId : String
  spanId : String
deriving DecidableEq, Repr

/-- A client-side span; ids are the hex strings the web tracer mints. -/
structure ClientSpan where
  name : String
  kind : SpanKind
  traceId : String
  spanId : String
  attributes : List (String × AttrVal)
  status : SpanStatus
  endCount : Nat
deriving DecidableEq, Repr

def ClientSpan.setAttribute (s : ClientSpan) (k : String) (v : AttrVal) : ClientSpan :=
  { s with attributes := (k, v) :: s.attributes.filter (fun p => p.1 != k) }

def ClientSpan.setStatus (s : ClientSpan) (st : SpanStatus) : ClientSpan :=
  { s with status := st }

def ClientSpan.endSpan (s : ClientSpan) : ClientSpan :=
  { s with endCount := s.endCount + 1 }

/-- `getHttpSpanName` (lines 93-100); the pathname extraction by `new URL`
is platform code, so the model keeps the url as given. -/
def getHttpSpanName (method url : String) : String :=
  "HTTP " ++ method.toUpper ++ " " ++ url

/-- The traceparent header the plugin's `createSpan` builds from its span
context (lines 491-493). -/
def mkTraceParent (c : ClientCtx) : String :=
  encodeTraceparent c.traceId c.spanId

/-- How the underlying XMLHttpRequest settles: `onload` with a status,
status text and response body, or `onerror`. -/
inductive XhrEvent
  | load (status : Nat) (statusText : String) (responseText : String)
  | netError
deriving DecidableEq, Repr

/-- The value a 2xx `$fetch` resolves with: the response body as parsed
JSON when `JSON.parse` succeeds, else the raw text. -/
inductive BodyVal
  | json (raw : String)
  | text (raw : String)
deriving DecidableEq, Repr

/-- `JSON.parse` with the `try/catch` fallback (lines 164-168); whether
the platform parser accepts the body is an input of the model. -/
def decodeBody (jsonOk : Bool) (raw : String) : BodyVal :=
  if jsonOk then .json raw else .text raw

inductive FetchOutcome
  | resolved (v : BodyVal)
  | rejected (message : String)
deriving DecidableEq, Repr

/-- A `Response` constructed from the xhr fields (lines 265-270). -/
structure ResponseVal where
  status : Nat
  statusText : String
  body : String
deriving DecidableEq, Repr

inductive NativeOutcome
  | resolved (r : ResponseVal)
  | rejected (message : String)
deriving DecidableEq, Repr

/-- The error message `HTTP ${status}: ${statusText}`. -/
def httpErrMsg (status : Nat) (statusText : String) : String :=
  "HTTP " ++ Nat.repr status ++ ": " ++ statusText

/-- Observable result of one `$fetch` helper call: the request headers
actually set on the xhr (in order, after the traceparent filter), the
final state of the per-call HTTP span if one was created, and how the
promise settled. -/
structure XhrCall where
  sentHeaders : List (String × String)
  httpSpan : Option ClientSpan
  outcome : FetchOutcome

/-- The per-call child HTTP span both transport helpers optionally start
(lines 118-131 and 214-227): CLIENT kind, under `parentCtx`, so it keeps
the enclosing span's traceId and gets a fresh spanId. `tracerReady`
models the module-level `tracer` being non-null. -/
def startHttpSpan (parentCtx : ClientCtx) (tracerReady : Bool)
    (freshSpanId : String) (method url : String) : Option ClientSpan :=
  if ENABLE_MANUAL_SPAN_HTTP_TRACING && tracerReady then
    some { name := getHttpSpanName method url, kind := .client,
           traceId := parentCtx.traceId, spanId := freshSpanId,
           attributes := [("http.method", .str method.toUpper), ("http.url", .str url)],
           status := .unset, endCount := 0 }
  else none

/-- The header value actually sent: computed from the child span's context
when one exists, else the enclosing span's precomputed header
(lines 133-138 and 229-234). -/
def effectiveTraceParent (traceParent : String) (httpSpan : Option ClientSpan) : String :=
  match httpSpan with
  | some sp => encodeTraceparent sp.traceId sp.spanId
  | none => traceParent

/-- `createXhrFetch` (lines 107-198): one call of the `$fetch` helper.
Headers are set in xhr order: traceparent first, then Content-Type, then
the caller's headers minus any case-insensitive `traceparent` entry. -/
def createXhrFetch (traceParent : String) (parentCtx : ClientCtx)
    (tracerReady : Bool) (freshSpanId : String) (method url : String)
    (userHeaders : List (String × String)) (ev : XhrEvent) (jsonOk : Bool) : XhrCall :=
  let httpSpan0 := startHttpSpan parentCtx tracerReady freshSpanId method url
  let eff := effectiveTraceParent traceParent httpSpan0
  let sent := ("traceparent", eff) :: ("Content-Type", "application/json")
      :: userHeaders.filter (fun p => lowerStr p.1 != "traceparent")
  match ev with
  | .load status statusText responseText =>
      let sp1 := httpSpan0.map (fun sp => sp.setAttribute "http.status_code" (.num status))
      if 200 ≤ status ∧ status < 300 then
        { sentHeaders := sent,
          httpSpan := sp1.map (fun sp => (sp.setStatus .ok).endSpan),
          outcome := .resolved (decodeBody jsonOk responseText) }
      else
        { sentHeaders := sent,
          httpSpan := sp1.map (fun sp =>
            (sp.setStatus (.error (httpErrMsg status statusText))).endSpan),
          outcome := .rejected (httpErrMsg status statusText) }
  | .netError =>
      { sentHeaders := sent,
        httpSpan := httpSpan0.map (fun sp => (sp.setStatus (.error "Network error")).endSpan),
        outcome := .rejected "Network error" }

/-- Observable result of one native-fetch helper call. -/
structure NativeCall where
  sentHeaders : List (String × String)
  httpSpan : Option ClientSpan
  outcome : NativeOutcome

/-- `createXhrNativeFetch` (lines 205-289): one call of the `fetch`
helper. Only the traceparent header is added before the caller's headers;
on `onload` the span status follows the 2xx test but the promise always
resolves with a `Response`; only `onerror` rejects. -/
def createXhrNativeFetch (traceParent : String) (parentCtx : ClientCtx)
    (tracerReady : Bool) (freshSpanId : String) (method url : String)
    (userHeaders : List (String × String)) (ev : XhrEvent) : NativeCall :=
  let httpSpan0 := startHttpSpan parentCtx tracerReady freshSpanId method url
  let eff := effectiveTraceParent traceParent httpSpan0
  let sent := ("traceparent", eff)
      :: userHeaders.filter (fun p => lowerStr p.1 != "traceparent")
  match ev with
  | .load status statusText responseText =>
      let sp1 := httpSpan0.map (fun sp => sp.setAttribute "http.status_code" (.num status))
      let sp2 :=
        if 200 ≤ status ∧ status < 300 then
          sp1.map (fun sp => (sp.setStatus .ok).endSpan)
        else
          sp1.map (fun sp => (sp.setStatus (.error (httpErrMsg status statusText))).endSpan)
      { sentHeaders := sent, httpSpan := sp2,
        outcome := .resolved ⟨status, statusText, responseText⟩ }
  | .netError =>
      { sentHeaders := sent,
        httpSpan := httpSpan0.map (fun sp => (sp.setStatus (.error "Network error")).endSpan),
        outcome := .rejected "Network error" }

/-- The values of all traceparent entries (case-insensitive) among the
headers set on a request. -/
def sentTraceparentValues (hs : List (String × String)) : List String :=
  (hs.filter (fun p => lowerStr p.1 == "traceparent")).map Prod.snd

-- ===========================================================================
-- Claim-level helper definitions
-- ===========================================================================

/-- End-call count a factory of the Result-based variant performs per
settlement path: one `span.end()` when the callback returns (success or
domain failure), none when it throws. -/
def settledEnds {T : Type} : CbOutcome T → Nat
  | .exn _ => 0
  | .ok _ => 1
  | .err _ => 1

/-- The actions a factory performs before it invokes the wrapped work. -/
def beforeWork (l : List Action) : List Action :=
  l.takeWhile (fun a => a != Action.invokeWork)

/-- Both trace headers are written, with the given values, strictly before
the wrapped work is invoked. -/
def headersBeforeWork (t s : String) (l : List Action) : Prop :=
  Action.setResHeader "X-Trace-Id" t ∈ beforeWork l
  ∧ Action.setResHeader "X-Span-Id" s ∈ beforeWork l
  ∧ Action.invokeWork ∈ l

-- ===========================================================================
-- Preservation lemmas for span mutators
-- ===========================================================================

@[simp] theorem setAttribute_endCount (s : Span) (k : String) (v : AttrVal) :
    (s.setAttribute k v).endCount = s.endCount := rfl

@[simp] theorem setAttribute_status (s : Span) (k : String) (v : AttrVal) :
    (s.setAttribute k v).status = s.status := rfl

@[simp] theorem setAttribute_traceId (s : Span) (k : String) (v : AttrVal) :
    (s.setAttribute k v).traceId = s.traceId := rfl

@[simp] theorem setAttribute_spanId (s : Span) (k : String) (v : AttrVal) :
    (s.setAttribute k v).spanId = s.spanId := rfl

@[simp] theorem setAttribute_parentSpanId (s : Span) (k : String) (v : AttrVal) :
    (s.setAttribute k v).parentSpanId = s.parentSpanId := rfl

@[simp] theorem addEvent_endCount (s : Span) (n : String) :
    (s.addEvent n).endCount = s.endCount := rfl

@[simp] theorem addEvent_status (s : Span) (n : String) :
    (s.addEvent n).status = s.status := rfl

@[simp] theorem addEvent_traceId (s : Span) (n : String) :
    (s.addEvent n).traceId = s.traceId := rfl

@[simp] theorem addEvent_spanId (s : Span) (n : String) :
    (s.addEvent n).spanId = s.spanId := rfl

@[simp] theorem addEvent_parentSpanId (s : Span) (n : String) :
    (s.addEvent n).parentSpanId = s.parentSpanId := rfl

@[simp] theorem recordException_endCount (s : Span) (m : String) :
    (s.recordException m).endCount = s.endCount := rfl

@[simp] theorem recordException_status (s : Span) (m : String) :
    (s.recordException m).status = s.status := rfl

@[simp] theorem recordException_traceId (s : Span) (m : String) :
    (s.recordException m).traceId = s.traceId := rfl

@[simp] theorem recordException_spanId (s : Span) (m : String) :
    (s.recordException m).spanId = s.spanId := rfl

@[simp] theorem recordException_parentSpanId (s : Span) (m : String) :
    (s.recordException m).parentSpanId = s.parentSpanId := rfl

@[simp] theorem setStatus_endCount (s : Span) (st : SpanStatus) :
    (s.setStatus st).endCount = s.endCount := rfl

@[simp] theorem setStatus_status (s : Span) (st : SpanStatus) :
    (s.setStatus st).status = st := rfl

@[simp] theorem setStatus_traceId (s : Span) (st : SpanStatus) :
    (s.setStatus st).traceId = s.traceId := rfl

@[simp] theorem setStatus_spanId (s : Span) (st : SpanStatus) :
    (s.setStatus st).spanId = s.spanId := rfl

@[simp] theorem setStatus_parentSpanId (s : Span) (st : SpanStatus) :
    (s.setStatus st).parentSpanId = s.parentSpanId := rfl

@[simp] theorem endSpan_endCount (s : Span) : s.endSpan.endCount = s.endCount + 1 := rfl

@[simp] theorem endSpan_status (s : Span) : s.endSpan.status = s.status := rfl

@[simp] theorem endSpan_traceId (s : Span) : s.endSpan.traceId = s.traceId := rfl

@[simp] theorem endSpan_spanId (s : Span) : s.endSpan.spanId = s.spanId := rfl

@[simp] theorem endSpan_parentSpanId (s : Span) :
    s.endSpan.parentSpanId = s.parentSpanId := rfl

@[simp] theorem applyOp_endCount (s : Span) (op : SpanOp) :
    (applyOp s op).endCount = s.endCount := by cases op <;> rfl

@[simp] theorem applyOp_status (s : Span) (op : SpanOp) :
    (applyOp s op).status = s.status := by cases op <;> rfl

@[simp] theorem applyOp_traceId (s : Span) (op : SpanOp) :
    (applyOp s op).traceId = s.traceId := by cases op <;> rfl

@[simp] theorem applyOp_spanId (s : Span) (op : SpanOp) :
    (applyOp s op).spanId = s.spanId := by cases op <;> rfl

@[simp] theorem applyOp_parentSpanId (s : Span) (op : SpanOp) :
    (applyOp s op).parentSpanId = s.parentSpanId := by cases op <;> rfl

@[simp] theorem applyOps_endCount (ops : List SpanOp) (s : Span) :
    (applyOps s ops).endCount = s.endCount := by
  induction ops generalizing s with
  | nil => rfl
  | cons op ops ih => simpa [applyOps, List.foldl_cons] using ih (applyOp s op)

@[simp] theorem applyOps_status (ops : List SpanOp) (s : Span) :
    (applyOps s ops).status = s.status := by
  induction ops generalizing s with
  | nil => rfl
  | cons op ops ih => simpa [applyOps, List.foldl_cons] using ih (applyOp s op)

@[simp] theorem applyOps_traceId (ops : List SpanOp) (s : Span) :
    (applyOps s ops).traceId = s.traceId := by
  induction ops generalizing s with
  | nil => rfl
  | cons op ops ih => simpa [applyOps, List.foldl_cons] using ih (applyOp s op)

@[simp] theorem applyOps_spanId (ops : List SpanOp) (s : Span) :
    (applyOps s ops).spanId = s.spanId := by
  induction ops generalizing s with
  | nil => rfl
  | cons op ops ih => simpa [applyOps, List.foldl_cons] using ih (applyOp s op)

@[simp] theorem applyOps_parentSpanId (ops : List SpanOp) (s : Span) :
    (applyOps s ops).parentSpanId = s.parentSpanId := by
  induction ops generalizing s with
  | nil => rfl
  | cons op ops ih => simpa [applyOps, List.foldl_cons] using ih (applyOp s op)

@[simp] theorem startSpan_endCount (n : String) (k : SpanKind)
    (a : List (String × AttrVal)) (p : Option SpanContext) (g : Nat) :
    (startSpan n k a p g).1.endCount = 0 := by cases p <;> rfl

@[simp] theorem startSpan_status (n : String) (k : SpanKind)
    (a : List (String × AttrVal)) (p : Option SpanContext) (g : Nat) :
    (startSpan n k a p g).1.status = .unset := by cases p <;> rfl

@[simp] theorem setHeader_storedCtx (e : H3Event) (k v : String) :
    (setHeader e k v).storedCtx = e.storedCtx := rfl

@[simp] theorem setHeader_reqHeaders (e : H3Event) (k v : String) :
    (setHeader e k v).reqHeaders = e.reqHeaders := rfl

@[simp] theorem setEventTraceContext_storedCtx (e : H3Event) (c : SpanContext) :
    (setEventTraceContext e c).storedCtx = some c := rfl

-- ===========================================================================
-- Claim C1
-- ===========================================================================

/-- Claim C1 (amended): in the Result-based variant, the span a factory
creates for its wrapped callback is ended exactly once when the callback
settles by returning — success or domain failure — but on the
thrown-exception path none of `createSpanFromRequest`, `createSpan`,
`createSpanInBackground` ends the span at all (`settledEnds` is 1 on the
two returned paths and 0 on the thrown path). -/
theorem claim1_end_counts_per_settlement {T : Type} (event : H3Event)
    (amb : Option SpanContext) (n1 n2 n3 : String) (cb : Callback T)
    (cbu : Callback Unit) (o1 o2 o3 : SpanOptions) (g1 g2 g3 : Nat) :
    (createSpanFromRequest event n1 cb o1 g1).span.endCount = settledEnds cb.outcome
    ∧ (createSpan amb n2 cb o2 g2).span.endCount = settledEnds cb.outcome
    ∧ (createSpanInBackground amb n3 cbu o3 g3).span.endCount = settledEnds cbu.outcome := by
  refine ⟨?_, ?_, ?_⟩
  · cases h : cb.outcome <;> simp [createSpanFromRequest, h, settledEnds]
  · cases h : cb.outcome <;> simp [createSpan, h, settledEnds]
  · cases h : cbu.outcome <;> simp [createSpanInBackground, h, settledEnds]

/-- Claim C1, counterexample to the claim as stated: a callback that
throws (`CbOutcome.exn`) leaves the span of `createSpan` with zero end
calls — it is not ended exactly once on the thrown-exception path. -/
theorem claim1_counterexample :
    (createSpan (T := Unit) none "op"
      ⟨[], .exn ⟨"boom", none⟩⟩ {} 0).span.endCount = 0 := rfl

-- ===========================================================================
-- Claim C2
-- ===========================================================================

/-- Claim C2: a callback of `createSpanFromRequest` returning a domain
failure `e = { message, statusCode }` makes the factory finalize the span
with status ERROR (ending it once) and return — not throw — the failure
augmented with the span's ids; a `defineTracedHandler` handler surfaces an
HTTP error with exactly `e.statusCode` and `e.message`, and the
`X-Trace-Id` / `X-Span-Id` response headers are present. -/
theorem claim2_returned_failure {T : Type} (event : H3Event) (name : String)
    (cb : Callback T) (opts : SpanOptions) (g : Nat) (e : HandlerError)
    (h : cb.outcome = .err e) :
    (createSpanFromRequest event name cb opts g).span.status = .error e.message
    ∧ (createSpanFromRequest event name cb opts g).span.endCount = 1
    ∧ (createSpanFromRequest event name cb opts g).outcome
        = .ok (.err ⟨e.message, e.statusCode,
            (createSpanFromRequest event name cb opts g).span.traceId,
            (createSpanFromRequest event name cb opts g).span.spanId⟩)
    ∧ (defineTracedHandler event name cb opts g).outcome
        = .error (.http ⟨e.statusCode, e.message, e.message,
            (createSpanFromRequest event name cb opts g).span.traceId,
            (createSpanFromRequest event name cb opts g).span.spanId⟩)
    ∧ (∃ v, getResHeader (defineTracedHandler event name cb opts g).event
        "X-Trace-Id" = some v)
    ∧ (∃ v, getResHeader (defineTracedHandler event name cb opts g).event
        "X-Span-Id" = some v) := by
  refine ⟨?_, ?_, ?_, ?_, ?_, ?_⟩ <;>
    simp [createSpanFromRequest, defineTracedHandler, h, getErrorMessage,
      getResHeader, setHeader, setEventTraceContext]

/-- Claim C2, witness at `{ message := "not found", statusCode := 404 }`. -/
theorem claim2_witness :
    (createSpanFromRequest (⟨[], [], none⟩ : H3Event) "get-user"
        (⟨[], CbOutcome.err ⟨"not found", 404⟩⟩ : Callback Unit) {} 0).span.status
      = SpanStatus.error "not found"
    ∧ (defineTracedHandler (⟨[], [], none⟩ : H3Event) "get-user"
        (⟨[], CbOutcome.err ⟨"not found", 404⟩⟩ : Callback Unit) {} 0).outcome
      = .error (.http ⟨404, "not found", "not found",
          (createSpanFromRequest (⟨[], [], none⟩ : H3Event) "get-user"
            (⟨[], CbOutcome.err ⟨"not found", 404⟩⟩ : Callback Unit) {} 0).span.traceId,
          (createSpanFromRequest (⟨[], [], none⟩ : H3Event) "get-user"
            (⟨[], CbOutcome.err ⟨"not found", 404⟩⟩ : Callback Unit) {} 0).span.spanId⟩)
    ∧ (∃ v, getResHeader (defineTracedHandler (⟨[], [], none⟩ : H3Event) "get-user"
        (⟨[], CbOutcome.err ⟨"not found", 404⟩⟩ : Callback Unit) {} 0).event
        "X-Trace-Id" = some v) := by
  have h := claim2_returned_failure (⟨[], [], none⟩ : H3Event) "get-user"
      (⟨[], CbOutcome.err ⟨"not found", 404⟩⟩ : Callback Unit) {} 0
      ⟨"not found", 404⟩ rfl
  exact ⟨h.1, h.2.2.2.1, h.2.2.2.2.1⟩

-- ===========================================================================
-- Claim C3
-- ===========================================================================

/-- Claim C3 (amended): the exception-handling behaviour the claim
describes is that of the first variant of `createSpanFromRequest`
(lines 127-187): a callback that throws gets its exception recorded, the
span finalized with status ERROR exactly once, and a handler-level
`createError` re-raised whose payload carries the same traceId and spanId
as the span (statusCode taken from the thrown error, default 500). The
Result-based variant at lines 481-534 does not catch the exception
(see the counterexample). -/
theorem claim3_thrown_exception_v1 {T : Type} (event : H3Event) (name : String)
    (cb : CallbackV1 T) (opts : SpanOptions) (g : Nat) (ex : Exn)
    (h : cb.outcome = .exn ex) :
    (createSpanFromRequestV1 event name cb opts g).span.status = .error ex.message
    ∧ (createSpanFromRequestV1 event name cb opts g).span.endCount = 1
    ∧ (createSpanFromRequestV1 event name cb opts g).outcome
        = .error (.http ⟨ex.statusCode.getD 500, ex.message, ex.message,
            (createSpanFromRequestV1 event name cb opts g).span.traceId,
            (createSpanFromRequestV1 event name cb opts g).span.spanId⟩) := by
  refine ⟨?_, ?_, ?_⟩ <;> simp [createSpanFromRequestV1, h]

/-- Claim C3, counterexample against the Result-based
`createSpanFromRequest` the claim cites: a throwing callback propagates
as the raw exception (no handler-level error, no ids attached), and the
span is neither ended nor given ERROR status. -/
theorem claim3_counterexample :
    (createSpanFromRequest (T := Unit) (⟨[], [], none⟩ : H3Event) "handler"
        ⟨[], .exn ⟨"boom", none⟩⟩ {} 0).outcome = .error (.raw ⟨"boom", none⟩)
    ∧ (createSpanFromRequest (T := Unit) (⟨[], [], none⟩ : H3Event) "handler"
        ⟨[], .exn ⟨"boom", none⟩⟩ {} 0).span.endCount = 0
    ∧ (createSpanFromRequest (T := Unit) (⟨[], [], none⟩ : H3Event) "handler"
        ⟨[], .exn ⟨"boom", none⟩⟩ {} 0).span.status = .unset :=
  ⟨rfl, rfl, rfl⟩

/-- Claim C3, witness: a callback throwing `{ message := "kaboom",
statusCode := 503 }` under the first variant. -/
theorem claim3_witness :
    (createSpanFromRequestV1 (⟨[], [], none⟩ : H3Event) "handler"
        (⟨[], CbOutcomeV1.exn ⟨"kaboom", some 503⟩⟩ : CallbackV1 Unit) {} 0).span.status
      = SpanStatus.error "kaboom"
    ∧ (createSpanFromRequestV1 (⟨[], [], none⟩ : H3Event) "handler"
        (⟨[], CbOutcomeV1.exn ⟨"kaboom", some 503⟩⟩ : CallbackV1 Unit) {} 0).outcome
      = .error (.http ⟨503, "kaboom", "kaboom",
          (createSpanFromRequestV1 (⟨[], [], none⟩ : H3Event) "handler"
            (⟨[], CbOutcomeV1.exn ⟨"kaboom", some 503⟩⟩ : CallbackV1 Unit) {} 0).span.traceId,
          (createSpanFromRequestV1 (⟨[], [], none⟩ : H3Event) "handler"
            (⟨[], CbOutcomeV1.exn ⟨"kaboom", some 503⟩⟩ : CallbackV1 Unit) {} 0).span.spanId⟩) := by
  have h := claim3_thrown_exception_v1 (⟨[], [], none⟩ : H3Event) "handler"
      (⟨[], CbOutcomeV1.exn ⟨"kaboom", some 503⟩⟩ : CallbackV1 Unit) {} 0
      ⟨"kaboom", some 503⟩ rfl
  exact ⟨h.1, h.2.2⟩

-- ===========================================================================
-- Claim C4
-- ===========================================================================

/-- Claim C4: for every request traced by `createSpanFromRequest` or
`defineTracedMiddleware`, both `X-Trace-Id` and `X-Span-Id` are written
with the new span's ids strictly before the wrapped work callback is
invoked, on every settlement path — so the headers are on the response no
matter how (or whether) the work settles. -/
theorem claim4_headers_before_work {T : Type} (event : H3Event) (n1 n2 : String)
    (cb : Callback T) (cbm : Callback Unit) (o1 o2 : SpanOptions) (g1 g2 : Nat) :
    headersBeforeWork
      (idRepr (createSpanFromRequest event n1 cb o1 g1).span.traceId)
      (idRepr (createSpanFromRequest event n1 cb o1 g1).span.spanId)
      (createSpanFromRequest event n1 cb o1 g1).log
    ∧ headersBeforeWork
      (idRepr (defineTracedMiddleware event n2 cbm o2 g2).span.traceId)
      (idRepr (defineTracedMiddleware event n2 cbm o2 g2).span.spanId)
      (defineTracedMiddleware event n2 cbm o2 g2).log := by
  constructor
  · cases h : cb.outcome <;>
      simp [createSpanFromRequest, h, headersBeforeWork, beforeWork]
  · cases h : cbm.outcome <;>
      simp [defineTracedMiddleware, h, headersBeforeWork, beforeWork]

-- ===========================================================================
-- Claim C5
-- ===========================================================================

/-- Claim C5: a `defineTracedMiddleware` step whose callback returns a
failure makes the adapter throw a terminal `createError` built from the
failure's statusCode and message (no normal return); on success the
middleware's span context is the stored ambient context of the request, so
a subsequent `createSpanFromRequest` on the same event starts its span as
a child of the middleware span — same traceId, parented on the
middleware's spanId. -/
theorem claim5_middleware_chain {T : Type} (event : H3Event) (nm nh : String)
    (cbm : Callback Unit) (cbh : Callback T) (om oh : SpanOptions) (g : Nat)
    (e : HandlerError) :
    (cbm.outcome = .err e →
      (defineTracedMiddleware event nm cbm om g).outcome
        = .error (.http ⟨e.statusCode, e.message, e.message,
            (defineTracedMiddleware event nm cbm om g).span.traceId,
            (defineTracedMiddleware event nm cbm om g).span.spanId⟩))
    ∧ (cbm.outcome = .ok () →
      (defineTracedMiddleware event nm cbm om g).outcome = .ok ()
      ∧ (defineTracedMiddleware event nm cbm om g).event.storedCtx
          = some ⟨(defineTracedMiddleware event nm cbm om g).span.traceId,
                  (defineTracedMiddleware event nm cbm om g).span.spanId⟩
      ∧ (createSpanFromRequest (defineTracedMiddleware event nm cbm om g).event
            nh cbh oh (defineTracedMiddleware event nm cbm om g).gen).span.traceId
          = (defineTracedMiddleware event nm cbm om g).span.traceId
      ∧ (createSpanFromRequest (defineTracedMiddleware event nm cbm om g).event
            nh cbh oh (defineTracedMiddleware event nm cbm om g).gen).span.parentSpanId
          = some (defineTracedMiddleware event nm cbm om g).span.spanId) := by
  constructor
  · intro h
    simp [defineTracedMiddleware, h, getErrorMessage]
  · intro h
    refine ⟨?_, ?_, ?_, ?_⟩ <;>
      cases hh : cbh.outcome <;>
        simp [defineTracedMiddleware, createSpanFromRequest, h, hh,
          getEventTraceContext, setEventTraceContext, startSpan]

/-- Claim C5, witness: a middleware failing with 401 throws the matching
error; a succeeding middleware parents the next handler span. -/
theorem claim5_witness :
    (defineTracedMiddleware (⟨[], [], none⟩ : H3Event) "auth"
        (⟨[], CbOutcome.err ⟨"Unauthorized", 401⟩⟩ : Callback Unit) {} 0).outcome
      = .error (.http ⟨401, "Unauthorized", "Unauthorized",
          (defineTracedMiddleware (⟨[], [], none⟩ : H3Event) "auth"
            (⟨[], CbOutcome.err ⟨"Unauthorized", 401⟩⟩ : Callback Unit) {} 0).span.traceId,
          (defineTracedMiddleware (⟨[], [], none⟩ : H3Event) "auth"
            (⟨[], CbOutcome.err ⟨"Unauthorized", 401⟩⟩ : Callback Unit) {} 0).span.spanId⟩)
    ∧ (createSpanFromRequest
        (defineTracedMiddleware (⟨[], [], none⟩ : H3Event) "auth"
          (⟨[], CbOutcome.ok ()⟩ : Callback Unit) {} 0).event
        "get-user" (⟨[], CbOutcome.ok 42⟩ : Callback Nat) {}
        (defineTracedMiddleware (⟨[], [], none⟩ : H3Event) "auth"
          (⟨[], CbOutcome.ok ()⟩ : Callback Unit) {} 0).gen).span.traceId
      = (defineTracedMiddleware (⟨[], [], none⟩ : H3Event) "auth"
          (⟨[], CbOutcome.ok ()⟩ : Callback Unit) {} 0).span.traceId := by
  have h1 := (claim5_middleware_chain (⟨[], [], none⟩ : H3Event) "auth" "get-user"
      (⟨[], CbOutcome.err ⟨"Unauthorized", 401⟩⟩ : Callback Unit)
      (⟨[], CbOutcome.ok 42⟩ : Callback Nat) {} {} 0 ⟨"Unauthorized", 401⟩).1 rfl
  have h2 := (claim5_middleware_chain (⟨[], [], none⟩ : H3Event) "auth" "get-user"
      (⟨[], CbOutcome.ok ()⟩ : Callback Unit)
      (⟨[], CbOutcome.ok 42⟩ : Callback Nat) {} {} 0 ⟨"Unauthorized", 401⟩).2 rfl
  exact ⟨h1, h2.2.2.1⟩

-- ===========================================================================
-- Claim C6
-- ===========================================================================

/-- Claim C6 (amended): a background task never hands the caller a value
or an error (its caller-visible result is `()` on every path). For
`createSpanInBackground`, a returned failure is logged locally and its
span independently ends once with status ERROR; a success ends OK; but a
thrown exception leaves its span un-ended and unlogged, as an unhandled
rejection. For `fireAndForget` a thrown exception is logged and its span
still ends once with status ERROR. -/
theorem claim6_background_isolation (amb : Option SpanContext) (n1 n2 : String)
    (cb : Callback Unit) (cbf : CallbackV1 Unit) (o1 o2 : SpanOptions)
    (g1 g2 : Nat) (e : HandlerError) (ex1 ex2 : Exn) :
    (createSpanInBackground amb n1 cb o1 g1).callerValue = ()
    ∧ (fireAndForget amb n2 cbf o2 g2).callerValue = ()
    ∧ (cb.outcome = .err e →
        (createSpanInBackground amb n1 cb o1 g1).span.endCount = 1
        ∧ (createSpanInBackground amb n1 cb o1 g1).span.status = .error e.message
        ∧ (createSpanInBackground amb n1 cb o1 g1).logged ≠ []
        ∧ (createSpanInBackground amb n1 cb o1 g1).unhandled = none)
    ∧ (cb.outcome = .ok () →
        (createSpanInBackground amb n1 cb o1 g1).span.endCount = 1
        ∧ (createSpanInBackground amb n1 cb o1 g1).span.status = .ok)
    ∧ (cb.outcome = .exn ex1 →
        (createSpanInBackground amb n1 cb o1 g1).span.endCount = 0
        ∧ (createSpanInBackground amb n1 cb o1 g1).logged = []
        ∧ (createSpanInBackground amb n1 cb o1 g1).unhandled = some ex1)
    ∧ (cbf.outcome = .exn ex2 →
        (fireAndForget amb n2 cbf o2 g2).span.endCount = 1
        ∧ (fireAndForget amb n2 cbf o2 g2).span.status = .error ex2.message
        ∧ (fireAndForget amb n2 cbf o2 g2).logged ≠ []) := by
  refine ⟨rfl, rfl, ?_, ?_, ?_, ?_⟩ <;> intro h <;>
    simp [createSpanInBackground, fireAndForget, h, getErrorMessage]

/-- Claim C6, counterexample to the claim as stated: a background task
started with `createSpanInBackground` whose work throws leaves the task's
span with zero end calls (so it never ends with status ERROR) and logs
nothing locally. -/
theorem claim6_counterexample :
    (createSpanInBackground none "bg-task"
        ⟨[], .exn ⟨"boom", none⟩⟩ {} 0).span.endCount = 0
    ∧ (createSpanInBackground none "bg-task"
        ⟨[], .exn ⟨"boom", none⟩⟩ {} 0).logged = [] :=
  ⟨rfl, rfl⟩

/-- Claim C6, witness: a background task failing with a returned error is
logged and ends ERROR, a fire-and-forget task that throws still ends. -/
theorem claim6_witness :
    (createSpanInBackground none "send-email"
        (⟨[], CbOutcome.err ⟨"db down", 500⟩⟩ : Callback Unit) {} 0).span.status
      = SpanStatus.error "db down"
    ∧ (createSpanInBackground none "send-email"
        (⟨[], CbOutcome.err ⟨"db down", 500⟩⟩ : Callback Unit) {} 0).logged ≠ []
    ∧ (fireAndForget none "send-email"
        (⟨[], CbOutcomeV1.exn ⟨"oops", none⟩⟩ : CallbackV1 Unit) {} 0).span.endCount = 1 := by
  have h1 := (claim6_background_isolation none "send-email" "send-email"
      (⟨[], CbOutcome.err ⟨"db down", 500⟩⟩ : Callback Unit)
      (⟨[], CbOutcomeV1.exn ⟨"oops", none⟩⟩ : CallbackV1 Unit) {} {} 0 0
      ⟨"db down", 500⟩ ⟨"oops", none⟩ ⟨"oops", none⟩)
  exact ⟨(h1.2.2.1 rfl).2.1, (h1.2.2.1 rfl).2.2.1, (h1.2.2.2.2.2 rfl).1⟩

-- ===========================================================================
-- Client-side preservation and transport lemmas
-- ===========================================================================

@[simp] theorem clientSetAttribute_status (s : ClientSpan) (k : String) (v : AttrVal) :
    (s.setAttribute k v).status = s.status := rfl

@[simp] theorem clientSetAttribute_kind (s : ClientSpan) (k : String) (v : AttrVal) :
    (s.setAttribute k v).kind = s.kind := rfl

@[simp] theorem clientSetAttribute_endCount (s : ClientSpan) (k : String) (v : AttrVal) :
    (s.setAttribute k v).endCount = s.endCount := rfl

@[simp] theorem clientSetAttribute_traceId (s : ClientSpan) (k : String) (v : AttrVal) :
    (s.setAttribute k v).traceId = s.traceId := rfl

@[simp] theorem clientSetAttribute_spanId (s : ClientSpan) (k : String) (v : AttrVal) :
    (s.setAttribute k v).spanId = s.spanId := rfl

@[simp] theorem clientSetStatus_status (s : ClientSpan) (st : SpanStatus) :
    (s.setStatus st).status = st := rfl

@[simp] theorem clientSetStatus_kind (s : ClientSpan) (st : SpanStatus) :
    (s.setStatus st).kind = s.kind := rfl

@[simp] theorem clientSetStatus_endCount (s : ClientSpan) (st : SpanStatus) :
    (s.setStatus st).endCount = s.endCount := rfl

@[simp] theorem clientEndSpan_status (s : ClientSpan) : s.endSpan.status = s.status := rfl

@[simp] theorem clientEndSpan_kind (s : ClientSpan) : s.endSpan.kind = s.kind := rfl

@[simp] theorem clientEndSpan_endCount (s : ClientSpan) :
    s.endSpan.endCount = s.endCount + 1 := rfl

@[simp] theorem lower_traceparent_beq :
    (lowerStr "traceparent" == "traceparent") = true := rfl

@[simp] theorem lower_contentType_beq :
    (lowerStr "Content-Type" == "traceparent") = false := rfl

/-- Headers surviving the transport's traceparent filter contain no
traceparent entry in any letter case. -/
theorem filter_dropped_traceparent (uh : List (String × String)) :
    (uh.filter (fun p => lowerStr p.1 != "traceparent")).filter
      (fun p => lowerStr p.1 == "traceparent") = [] := by
  induction uh with
  | nil => rfl
  | cons a t ih =>
      cases hc : (lowerStr a.1 == "traceparent") <;>
        simp [List.filter_cons, hc, ih, bne]

/-- The headers a `$fetch` helper call sets, independent of settlement. -/
theorem createXhrFetch_sentHeaders (tp : String) (ctx : ClientCtx) (tr : Bool)
    (fr method url : String) (uh : List (String × String)) (ev : XhrEvent)
    (jsonOk : Bool) :
    (createXhrFetch tp ctx tr fr method url uh ev jsonOk).sentHeaders
      = ("traceparent", effectiveTraceParent tp (startHttpSpan ctx tr fr method url))
        :: ("Content-Type", "application/json")
        :: uh.filter (fun p => lowerStr p.1 != "traceparent") := by
  cases ev
  · simp only [createXhrFetch]
    split <;> rfl
  · rfl

/-- The headers a native-fetch helper call sets, independent of settlement. -/
theorem createXhrNativeFetch_sentHeaders (tp : String) (ctx : ClientCtx) (tr : Bool)
    (fr method url : String) (uh : List (String × String)) (ev : XhrEvent) :
    (createXhrNativeFetch tp ctx tr fr method url uh ev).sentHeaders
      = ("traceparent", effectiveTraceParent tp (startHttpSpan ctx tr fr method url))
        :: uh.filter (fun p => lowerStr p.1 != "traceparent") := by
  cases ev <;> rfl

/-- The kind of the per-call HTTP span is unchanged by settlement. -/
theorem createXhrFetch_httpSpan_kind (tp : String) (ctx : ClientCtx) (tr : Bool)
    (fr method url : String) (uh : List (String × String)) (ev : XhrEvent)
    (jsonOk : Bool) :
    (createXhrFetch tp ctx tr fr method url uh ev jsonOk).httpSpan.map ClientSpan.kind
      = (startHttpSpan ctx tr fr method url).map ClientSpan.kind := by
  cases ev
  · simp only [createXhrFetch]
    split <;> cases hsp : startHttpSpan ctx tr fr method url <;> simp [hsp]
  · cases hsp : startHttpSpan ctx tr fr method url <;> simp [createXhrFetch, hsp]

/-- The single traceparent value among the set headers is the transport's
computed one. -/
theorem sentTraceparentValues_cons (eff : String) (rest : List (String × String))
    (h : rest.filter (fun p => lowerStr p.1 == "traceparent") = []) :
    sentTraceparentValues (("traceparent", eff) :: rest) = [eff] := by
  simp [sentTraceparentValues, List.filter_cons, h]

-- ===========================================================================
-- Claim C7
-- ===========================================================================

/-- Claim C7 (amended): inside an enclosing client span, a `$fetch` call
resolving with a 2xx status finalizes the per-call HTTP span OK (ending it
once) and resolves with the JSON-decoded body when parseable else the raw
text; a non-2xx status or network failure finalizes it ERROR with the
status text and rejects. The native `fetch` helper finalizes its span by
the same status rule but resolves with a `Response` for every completed
HTTP status — it rejects only on network failure. -/
theorem claim7_transport_settlement (tp : String) (ctx : ClientCtx)
    (fr method url : String) (uh : List (String × String)) (jsonOk : Bool)
    (status : Nat) (st body : String) :
    (200 ≤ status ∧ status < 300 →
      (createXhrFetch tp ctx true fr method url uh (.load status st body) jsonOk).outcome
        = .resolved (decodeBody jsonOk body)
      ∧ (createXhrFetch tp ctx true fr method url uh
          (.load status st body) jsonOk).httpSpan.map ClientSpan.status = some .ok
      ∧ (createXhrFetch tp ctx true fr method url uh
          (.load status st body) jsonOk).httpSpan.map ClientSpan.endCount = some 1
      ∧ (createXhrNativeFetch tp ctx true fr method url uh (.load status st body)).outcome
        = .resolved ⟨status, st, body⟩
      ∧ (createXhrNativeFetch tp ctx true fr method url uh
          (.load status st body)).httpSpan.map ClientSpan.status = some .ok)
    ∧ (¬(200 ≤ status ∧ status < 300) →
      (createXhrFetch tp ctx true fr method url uh (.load status st body) jsonOk).outcome
        = .rejected (httpErrMsg status st)
      ∧ (createXhrFetch tp ctx true fr method url uh
          (.load status st body) jsonOk).httpSpan.map ClientSpan.status
        = some (.error (httpErrMsg status st))
      ∧ (createXhrFetch tp ctx true fr method url uh
          (.load status st body) jsonOk).httpSpan.map ClientSpan.endCount = some 1
      ∧ (createXhrNativeFetch tp ctx true fr method url uh (.load status st body)).outcome
        = .resolved ⟨status, st, body⟩
      ∧ (createXhrNativeFetch tp ctx true fr method url uh
          (.load status st body)).httpSpan.map ClientSpan.status
        = some (.error (httpErrMsg status st)))
    ∧ ((createXhrFetch tp ctx true fr method url uh .netError jsonOk).outcome
        = .rejected "Network error"
      ∧ (createXhrFetch tp ctx true fr method url uh .netError jsonOk).httpSpan.map
          ClientSpan.status = some (.error "Network error")
      ∧ (createXhrFetch tp ctx true fr method url uh .netError jsonOk).httpSpan.map
          ClientSpan.endCount = some 1
      ∧ (createXhrNativeFetch tp ctx true fr method url uh .netError).outcome
        = .rejected "Network error") := by
  refine ⟨?_, ?_, ?_⟩
  · intro h
    simp [createXhrFetch, createXhrNativeFetch, startHttpSpan,
      ENABLE_MANUAL_SPAN_HTTP_TRACING, h]
  · intro h
    simp [createXhrFetch, createXhrNativeFetch, startHttpSpan,
      ENABLE_MANUAL_SPAN_HTTP_TRACING, h]
  · simp [createXhrFetch, createXhrNativeFetch, startHttpSpan,
      ENABLE_MANUAL_SPAN_HTTP_TRACING]

/-- Claim C7, counterexample to the claim as stated: the native `fetch`
helper, on a completed non-2xx response, resolves the promise (with a
`Response`) instead of rejecting it, even while its span ends ERROR. -/
theorem claim7_counterexample :
    (createXhrNativeFetch "00-t-s-01" ⟨"t", "s"⟩ true "f1" "GET" "/api/x" []
        (.load 404 "Not Found" "nope")).outcome
      = .resolved ⟨404, "Not Found", "nope"⟩
    ∧ (createXhrNativeFetch "00-t-s-01" ⟨"t", "s"⟩ true "f1" "GET" "/api/x" []
        (.load 404 "Not Found" "nope")).httpSpan.map ClientSpan.status
      = some (.error "HTTP 404: Not Found") := by
  constructor
  · rfl
  · simp only [createXhrNativeFetch, startHttpSpan, ENABLE_MANUAL_SPAN_HTTP_TRACING]
    rfl

/-- Claim C7, witness: a 204 response resolves with the decoded body, a
404 response rejects with the status text. -/
theorem claim7_witness :
    (createXhrFetch "00-a-b-01" ⟨"a", "b"⟩ true "c1" "GET" "/api/y" []
        (.load 204 "No Content" "ok") true).outcome = .resolved (.json "ok")
    ∧ (createXhrFetch "00-a-b-01" ⟨"a", "b"⟩ true "c1" "GET" "/api/y" []
        (.load 404 "Not Found" "no") true).outcome
      = .rejected "HTTP 404: Not Found" := by
  have h1 := (claim7_transport_settlement "00-a-b-01" ⟨"a", "b"⟩ "c1" "GET"
      "/api/y" [] true 204 "No Content" "ok").1 (by decide)
  have h2 := (claim7_transport_settlement "00-a-b-01" ⟨"a", "b"⟩ "c1" "GET"
      "/api/y" [] true 404 "Not Found" "no").2.1 (by decide)
  exact ⟨h1.1, h2.1⟩

-- ===========================================================================
-- Claim C8
-- ===========================================================================

/-- Claim C8: for a transport call inside an enclosing client span (whose
header is `mkTraceParent enc`): when the per-call child span is created it
has kind CLIENT and the sent traceparent is computed from the child's
context — the enclosing traceId with the child's fresh spanId; when no
child is created the sent header falls back to the enclosing span's
header; in both cases the sent value is exactly of the form
`00-<traceId>-<spanId>-01`. -/
theorem claim8_child_span_header (enc : ClientCtx) (tracerReady : Bool)
    (fr method url : String) (uh : List (String × String)) (ev : XhrEvent)
    (jsonOk : Bool) :
    (tracerReady = true →
      (createXhrFetch (mkTraceParent enc) enc tracerReady fr method url uh
          ev jsonOk).httpSpan.map ClientSpan.kind = some .client
      ∧ sentTraceparentValues (createXhrFetch (mkTraceParent enc) enc tracerReady fr
          method url uh ev jsonOk).sentHeaders = [encodeTraceparent enc.traceId fr]
      ∧ sentTraceparentValues (createXhrNativeFetch (mkTraceParent enc) enc tracerReady
          fr method url uh ev).sentHeaders = [encodeTraceparent enc.traceId fr])
    ∧ (tracerReady = false →
      (createXhrFetch (mkTraceParent enc) enc tracerReady fr method url uh
          ev jsonOk).httpSpan = none
      ∧ sentTraceparentValues (createXhrFetch (mkTraceParent enc) enc tracerReady fr
          method url uh ev jsonOk).sentHeaders = [mkTraceParent enc]
      ∧ sentTraceparentValues (createXhrNativeFetch (mkTraceParent enc) enc tracerReady
          fr method url uh ev).sentHeaders = [mkTraceParent enc])
    ∧ (∃ t s, sentTraceparentValues (createXhrFetch (mkTraceParent enc) enc tracerReady
        fr method url uh ev jsonOk).sentHeaders = [encodeTraceparent t s])
    ∧ (∃ t s, sentTraceparentValues (createXhrNativeFetch (mkTraceParent enc) enc
        tracerReady fr method url uh ev).sentHeaders = [encodeTraceparent t s]) := by
  have hf := createXhrFetch_sentHeaders (mkTraceParent enc) enc tracerReady fr
      method url uh ev jsonOk
  have hn := createXhrNativeFetch_sentHeaders (mkTraceParent enc) enc tracerReady fr
      method url uh ev
  have hk := createXhrFetch_httpSpan_kind (mkTraceParent enc) enc tracerReady fr
      method url uh ev jsonOk
  have hdrop := filter_dropped_traceparent uh
  refine ⟨?_, ?_, ?_, ?_⟩
  · intro h
    subst h
    refine ⟨?_, ?_, ?_⟩
    · rw [hk]
      simp [startHttpSpan, ENABLE_MANUAL_SPAN_HTTP_TRACING]
    · rw [hf, sentTraceparentValues_cons _ _ (by simp [List.filter_cons, hdrop])]
      simp [effectiveTraceParent, startHttpSpan, ENABLE_MANUAL_SPAN_HTTP_TRACING]
    · rw [hn, sentTraceparentValues_cons _ _ hdrop]
      simp [effectiveTraceParent, startHttpSpan, ENABLE_MANUAL_SPAN_HTTP_TRACING]
  · intro h
    subst h
    refine ⟨?_, ?_, ?_⟩
    · have hk0 := createXhrFetch_httpSpan_kind (mkTraceParent enc) enc false fr
          method url uh ev jsonOk
      cases hsp : (createXhrFetch (mkTraceParent enc) enc false fr method url uh
          ev jsonOk).httpSpan with
      | none => rfl
      | some sp =>
          rw [hsp] at hk0
          simp [startHttpSpan, ENABLE_MANUAL_SPAN_HTTP_TRACING] at hk0
    · rw [hf, sentTraceparentValues_cons _ _ (by simp [List.filter_cons, hdrop])]
      simp [effectiveTraceParent, startHttpSpan, ENABLE_MANUAL_SPAN_HTTP_TRACING]
    · rw [hn, sentTraceparentValues_cons _ _ hdrop]
      simp [effectiveTraceParent, startHttpSpan, ENABLE_MANUAL_SPAN_HTTP_TRACING]
  · cases tracerReady
    · refine ⟨enc.traceId, enc.spanId, ?_⟩
      rw [hf, sentTraceparentValues_cons _ _ (by simp [List.filter_cons, hdrop])]
      simp [effectiveTraceParent, startHttpSpan, ENABLE_MANUAL_SPAN_HTTP_TRACING,
        mkTraceParent]
    · refine ⟨enc.traceId, fr, ?_⟩
      rw [hf, sentTraceparentValues_cons _ _ (by simp [List.filter_cons, hdrop])]
      simp [effectiveTraceParent, startHttpSpan, ENABLE_MANUAL_SPAN_HTTP_TRACING]
  · cases tracerReady
    · refine ⟨enc.traceId, enc.spanId, ?_⟩
      rw [hn, sentTraceparentValues_cons _ _ hdrop]
      simp [effectiveTraceParent, startHttpSpan, ENABLE_MANUAL_SPAN_HTTP_TRACING,
        mkTraceParent]
    · refine ⟨enc.traceId, fr, ?_⟩
      rw [hn, sentTraceparentValues_cons _ _ hdrop]
      simp [effectiveTraceParent, startHttpSpan, ENABLE_MANUAL_SPAN_HTTP_TRACING]

/-- Claim C8, witness: with the tracer ready, the child span is CLIENT
kind and the sent header is built from the enclosing traceId and the
child's fresh spanId. -/
theorem claim8_witness :
    (createXhrFetch (mkTraceParent ⟨"aaa", "bbb"⟩) ⟨"aaa", "bbb"⟩ true "ccc"
        "GET" "/api/z" [] (.load 200 "OK" "") true).httpSpan.map ClientSpan.kind
      = some .client
    ∧ sentTraceparentValues (createXhrFetch (mkTraceParent ⟨"aaa", "bbb"⟩)
        ⟨"aaa", "bbb"⟩ true "ccc" "GET" "/api/z" [] (.load 200 "OK" "")
        true).sentHeaders = [encodeTraceparent "aaa" "ccc"] := by
  have h := (claim8_child_span_header ⟨"aaa", "bbb"⟩ true "ccc" "GET" "/api/z" []
      (.load 200 "OK" "") true).1 rfl
  exact ⟨h.1, h.2.1⟩

-- ===========================================================================
-- Claim C10
-- ===========================================================================

/-- Claim C10: both transport helpers always send the transport's computed
traceparent: every caller-supplied header whose name lowercases to
`traceparent` is dropped, so the traceparent values among the sent headers
are exactly the computed one, and two calls whose caller headers agree
outside their traceparent entries send identical headers. -/
theorem claim10_traceparent_not_overridable (tp : String) (ctx : ClientCtx)
    (tr : Bool) (fr method url : String) (uh1 uh2 : List (String × String))
    (ev : XhrEvent) (jsonOk : Bool)
    (h : uh1.filter (fun p => lowerStr p.1 != "traceparent")
       = uh2.filter (fun p => lowerStr p.1 != "traceparent")) :
    (createXhrFetch tp ctx tr fr method url uh1 ev jsonOk).sentHeaders
      = (createXhrFetch tp ctx tr fr method url uh2 ev jsonOk).sentHeaders
    ∧ (createXhrNativeFetch tp ctx tr fr method url uh1 ev).sentHeaders
      = (createXhrNativeFetch tp ctx tr fr method url uh2 ev).sentHeaders
    ∧ sentTraceparentValues (createXhrFetch tp ctx tr fr method url uh1
        ev jsonOk).sentHeaders
      = [effectiveTraceParent tp (startHttpSpan ctx tr fr method url)]
    ∧ sentTraceparentValues (createXhrNativeFetch tp ctx tr fr method url
        uh1 ev).sentHeaders
      = [effectiveTraceParent tp (startHttpSpan ctx tr fr method url)] := by
  refine ⟨?_, ?_, ?_, ?_⟩
  · rw [createXhrFetch_sentHeaders, createXhrFetch_sentHeaders, h]
  · rw [createXhrNativeFetch_sentHeaders, createXhrNativeFetch_sentHeaders, h]
  · rw [createXhrFetch_sentHeaders,
      sentTraceparentValues_cons _ _
        (by simp [List.filter_cons, filter_dropped_traceparent])]
  · rw [createXhrNativeFetch_sentHeaders,
      sentTraceparentValues_cons _ _ (filter_dropped_traceparent uh1)]

/-- Claim C10, witness: a caller-supplied `TraceParent` header (any case)
does not change the sent headers. -/
theorem claim10_witness :
    (createXhrFetch "00-a-b-01" ⟨"a", "b"⟩ true "c" "GET" "/api/w"
        [("TraceParent", "00-evil-evil-01"), ("x-api-version", "2")]
        (.load 200 "OK" "") true).sentHeaders
      = (createXhrFetch "00-a-b-01" ⟨"a", "b"⟩ true "c" "GET" "/api/w"
        [("x-api-version", "2")] (.load 200 "OK" "") true).sentHeaders := by
  have h := claim10_traceparent_not_overridable "00-a-b-01" ⟨"a", "b"⟩ true "c"
      "GET" "/api/w" [("TraceParent", "00-evil-evil-01"), ("x-api-version", "2")]
      [("x-api-version", "2")] (.load 200 "OK" "") true (by decide)
  exact h.1

-- ===========================================================================
-- Claim C9
-- ===========================================================================

/-- Claim C9: for every valid id pair — a 32-char lowercase-hex traceId
and a 16-char lowercase-hex spanId, neither all zeros — decoding the
header built by the encoder (`00-<traceId>-<spanId>-01`) through the
trace-context extraction yields exactly the same traceId and spanId. -/
theorem claim9_roundtrip (t s : String)
    (ht1 : t.length = 32) (ht2 : t.data.all isHexChar = true)
    (ht3 : t.data.any (fun c => c != '0') = true)
    (hs1 : s.length = 16) (hs2 : s.data.all isHexChar = true)
    (hs3 : s.data.any (fun c => c != '0') = true) :
    decodeTraceparent (encodeTraceparent t s) = some (t, s) := by
  have ht1' : t.data.length = 32 := ht1
  have hs1' : s.data.length = 16 := hs1
  have hdata : (encodeTraceparent t s).data
      = '0' :: '0' :: '-' :: (t.data ++ '-' :: (s.data ++ ['-', '0', '1'])) := by
    have h00 : ("00-").data = ['0', '0', '-'] := rfl
    have hd : ("-").data = ['-'] := rfl
    have h01 : ("-01").data = ['-', '0', '1'] := rfl
    simp [encodeTraceparent, String.data_append, h00, hd, h01, List.append_assoc]
  have c3 : ('0' :: '0' :: '-' :: (t.data ++ '-' :: (s.data ++ ['-', '0', '1']))).drop 3
      = t.data ++ '-' :: (s.data ++ ['-', '0', '1']) := rfl
  have htk32 : (t.data ++ '-' :: (s.data ++ ['-', '0', '1'])).take 32 = t.data := by
    rw [← ht1', List.take_left]
  have hdp32 : (t.data ++ '-' :: (s.data ++ ['-', '0', '1'])).drop 32
      = '-' :: (s.data ++ ['-', '0', '1']) := by
    rw [← ht1', List.drop_left]
  have h35 : ('0' :: '0' :: '-' :: (t.data ++ '-' :: (s.data ++ ['-', '0', '1']))).drop 35
      = '-' :: (s.data ++ ['-', '0', '1']) := by
    have hh : ('0' :: '0' :: '-' :: (t.data ++ '-' :: (s.data ++ ['-', '0', '1']))).drop 35
        = (('0' :: '0' :: '-' :: (t.data ++ '-' :: (s.data ++ ['-', '0', '1']))).drop 3).drop 32 := by
      rw [List.drop_drop]
    rw [hh, c3, hdp32]
  have h36 : ('0' :: '0' :: '-' :: (t.data ++ '-' :: (s.data ++ ['-', '0', '1']))).drop 36
      = s.data ++ ['-', '0', '1'] := by
    have hh : ('0' :: '0' :: '-' :: (t.data ++ '-' :: (s.data ++ ['-', '0', '1']))).drop 36
        = (('0' :: '0' :: '-' :: (t.data ++ '-' :: (s.data ++ ['-', '0', '1']))).drop 35).drop 1 := by
      rw [List.drop_drop]
    rw [hh, h35]
    rfl
  have htk16 : (s.data ++ ['-', '0', '1']).take 16 = s.data := by
    rw [← hs1', List.take_left]
  have hdp16 : (s.data ++ ['-', '0', '1']).drop 16 = ['-', '0', '1'] := by
    rw [← hs1', List.drop_left]
  have h52 : ('0' :: '0' :: '-' :: (t.data ++ '-' :: (s.data ++ ['-', '0', '1']))).drop 52
      = ['-', '0', '1'] := by
    have hh : ('0' :: '0' :: '-' :: (t.data ++ '-' :: (s.data ++ ['-', '0', '1']))).drop 52
        = (('0' :: '0' :: '-' :: (t.data ++ '-' :: (s.data ++ ['-', '0', '1']))).drop 36).drop 16 := by
      rw [List.drop_drop]
    rw [hh, h36, hdp16]
  have h53 : ('0' :: '0' :: '-' :: (t.data ++ '-' :: (s.data ++ ['-', '0', '1']))).drop 53
      = ['0', '1'] := by
    have hh : ('0' :: '0' :: '-' :: (t.data ++ '-' :: (s.data ++ ['-', '0', '1']))).drop 53
        = (('0' :: '0' :: '-' :: (t.data ++ '-' :: (s.data ++ ['-', '0', '1']))).drop 52).drop 1 := by
      rw [List.drop_drop]
    rw [hh, h52]
    rfl
  simp only [decodeTraceparent, hdata]
  split
  · rw [c3, htk32, h36, htk16]
  · next hneg =>
      exfalso
      apply hneg
      refine ⟨rfl, rfl, ?_, ?_, ?_, ?_, ?_, ?_, ?_, ?_, ?_, ?_⟩
      · rw [c3, htk32]
        exact ht1'
      · rw [c3, htk32]
        exact ht2
      · rw [c3, htk32]
        exact ht3
      · rw [h35]
        rfl
      · rw [h36, htk16]
        exact hs1'
      · rw [h36, htk16]
        exact hs2
      · rw [h36, htk16]
        exact hs3
      · rw [h52]
        rfl
      · rw [h53]
        rfl
      · rw [h53]
        rfl

/-- Claim C9, witness: the W3C example ids round-trip. -/
theorem claim9_witness :
    decodeTraceparent (encodeTraceparent "0af7651916cd43dd8448eb211c80319c"
        "b7ad6b7169203331")
      = some ("0af7651916cd43dd8448eb211c80319c", "b7ad6b7169203331") :=
  claim9_roundtrip "0af7651916cd43dd8448eb211c80319c" "b7ad6b7169203331"
    rfl rfl rfl rfl rfl rfl

end NuxtAxiom
